import Mathlib

/-!
Verification development for the AroMi AI Agent backend (src/main.py).

The backend is a FastAPI application with three POST handlers:
`generate_content` (/generate), `get_fitness_plan` (/fitness-plan) and
`get_disease_diet` (/disease-diet).  Each handler is a pure computation over
its request body plus knowledge tables that are rebuilt locally on every call.

Modelling conventions:
* Python strings are Lean `String`s; `s.lower()` is `lowerStr` (ASCII folding
  via `Char.toLower`, which is the identity on all non-ASCII characters
  appearing in the tables); `needle in hay` is `strHasSub needle hay`.
* Python floats are modelled by exact rationals `ℚ`; `round(x, 1)` is
  `round1`, round-half-to-even at one decimal place, matching CPython's
  banker's rounding on the values at issue.
* Python dicts (built from literals, iterated in insertion order) are
  association lists `List (String × _)` searched with `List.find?`.
* A handler body wrapped in `try/except Exception: raise HTTPException(500, str(e))`
  is a function into `Except HTTPError _`; the only reachable exception in the
  three handlers is the float division by zero in the BMI computation when
  `height = 0`.
-/

/-- Boolean test that the first list is an initial segment of the second
(character-wise equality). -/
def listPre : List Char → List Char → Bool
  | [], _ => true
  | _ :: _, [] => false
  | a :: as, b :: bs => a == b && listPre as bs

/-- Boolean test that `n` occurs as a contiguous run inside the second list,
scanning left to right. -/
def listSub (n : List Char) : List Char → Bool
  | [] => listPre n []
  | b :: bs => listPre n (b :: bs) || listSub n bs

/-- Python's `needle in hay` substring containment on strings. -/
def strHasSub (needle hay : String) : Bool :=
  listSub needle.data hay.data

/-- Python's `str.lower()` restricted to ASCII case folding, which coincides
with CPython on every string the handlers touch. -/
def lowerStr (s : String) : String :=
  ⟨s.data.map Char.toLower⟩

/-- Floor of a rational as an integer, computable (`fdiv` is floor division
and the denominator is positive). -/
def ratFloor (q : ℚ) : ℤ :=
  Int.fdiv q.num (q.den : ℤ)

/-- Round a rational to the nearest integer, ties to even (CPython's `round`). -/
def rndHalfEven (q : ℚ) : ℤ :=
  let f := ratFloor q
  let r := q - (f : ℚ)
  if r < 1/2 then f
  else if 1/2 < r then f + 1
  else if f % 2 = 0 then f else f + 1

/-- Python's `round(x, 1)`: round to one decimal place, ties to even. -/
def round1 (q : ℚ) : ℚ :=
  (rndHalfEven (q * 10) : ℚ) / 10

deriving instance DecidableEq for Except

/-- HTTPException as raised by the handlers' `except` blocks. -/
structure HTTPError where
  status : Nat
  detail : String
deriving Repr, DecidableEq

/-- Response model of /fitness-plan (`FitnessResponse` in src/main.py). -/
structure FitnessResponse where
  bmi : ℚ
  category : String
  plan : List String
deriving Repr, DecidableEq

/-- The BMI category chain of `get_fitness_plan` (src/main.py lines 166-173). -/
def bmiCategory (bmi : ℚ) : String :=
  if bmi < 18.5 then "Underweight"
  else if 18.5 ≤ bmi ∧ bmi < 25 then "Normal weight"
  else if 25 ≤ bmi ∧ bmi < 30 then "Overweight"
  else "Obese"

/-- Weight-loss plan literal (src/main.py lines 180-187). -/
def lose_plan : List String :=
  ["🏃 Cardio: 30-45 minutes daily (running, cycling, swimming)",
   "🥗 Calorie deficit diet (reduce 500 calories from maintenance)",
   "💪 Strength training: 3 times a week",
   "🥤 Drink 3-4 liters of water daily",
   "😴 Get 7-8 hours of sleep",
   "📊 Track your progress weekly"]

/-- Muscle-gain plan literal (src/main.py lines 189-196). -/
def gain_plan : List String :=
  ["🏋️ Strength training: 4-5 times a week",
   "🍗 High protein diet (1.6-2.2g protein per kg bodyweight)",
   "📈 Calorie surplus (300-500 calories above maintenance)",
   "🥩 Include lean meats, eggs, dairy, and legumes",
   "💤 Rest and recovery are crucial",
   "📝 Progressive overload in workouts"]

/-- Maintenance plan literal (src/main.py lines 198-205). -/
def maintain_plan : List String :=
  ["🚶 Active lifestyle: 10,000 steps daily",
   "⚖️ Balanced diet with proper macros",
   "🏋️ Exercise: 3-4 times a week (mix of cardio and strength)",
   "🧘 Include flexibility training",
   "💧 Stay hydrated",
   "📊 Monitor weight weekly"]

/-- Endurance plan literal (src/main.py lines 207-214). -/
def endurance_plan : List String :=
  ["🏃 Long-distance cardio: 3-4 times a week",
   "⏱️ Interval training: 2 times a week",
   "💪 Light strength training for muscle endurance",
   "🍝 Complex carbs for sustained energy",
   "🧘 Yoga for flexibility and recovery",
   "📈 Gradually increase intensity"]

/-- General-fitness fallback plan literal (src/main.py lines 216-223). -/
def general_plan : List String :=
  ["🚶 Start with 20-30 minutes walking daily",
   "💪 Basic bodyweight exercises (push-ups, squats, lunges)",
   "🥗 Eat whole foods, avoid processed items",
   "🧘 Stretch for 10 minutes daily",
   "💧 Drink plenty of water",
   "📈 Gradually increase workout intensity"]

/-- Goal-keyword plan selection chain of `get_fitness_plan`
(src/main.py lines 176-223): substring match over the lower-cased goal. -/
def selectGoalPlan (goal : String) : List String :=
  let g := lowerStr goal
  if strHasSub "lose" g then lose_plan
  else if strHasSub "gain" g || strHasSub "muscle" g then gain_plan
  else if strHasSub "maintain" g then maintain_plan
  else if strHasSub "endurance" g then endurance_plan
  else general_plan

/-- Handler of POST /fitness-plan (`get_fitness_plan`, src/main.py lines
155-232).  `height = 0` makes `weight / (height_m * height_m)` raise
ZeroDivisionError ("float division by zero"), which the except block turns
into HTTP 500; every other input completes. -/
def get_fitness_plan (height weight : Int) (goal : String) :
    Except HTTPError FitnessResponse :=
  if height = 0 then
    .error ⟨500, "float division by zero"⟩
  else
    let height_m : ℚ := (height : ℚ) / 100
    let bmi := round1 ((weight : ℚ) / (height_m * height_m))
    .ok ⟨bmi, bmiCategory bmi, selectGoalPlan goal⟩


/-- Response model of /disease-diet (`DiseaseResponse` in src/main.py). -/
structure DiseaseResponse where
  recommended : List String
  avoid : List String
deriving Repr, DecidableEq

/-- A diet plan entry (`{"recommended": [...], "avoid": [...]}` dict). -/
structure DietPlan where
  recommended : List String
  avoid : List String
deriving Repr, DecidableEq

/-- Diabetes plan literal (src/main.py lines 245-264). -/
def diabetes_plan : DietPlan :=
  { recommended :=
      ["Leafy greens (spinach, kale, lettuce)",
       "Whole grains (oats, quinoa, brown rice)",
       "Lean proteins (chicken, fish, tofu)",
       "Berries and citrus fruits",
       "Nuts and seeds (almonds, walnuts, chia seeds)",
       "Legumes (beans, lentils, chickpeas)",
       "Greek yogurt (unsweetened)"],
    avoid :=
      ["Sugary beverages and sodas",
       "White bread and refined flour",
       "Processed snacks and sweets",
       "Fried foods",
       "High-sugar fruits (bananas, grapes, mangoes)",
       "Sweetened breakfast cereals",
       "Honey, maple syrup, and added sugars"] }

/-- Hypertension plan literal (src/main.py lines 265-284). -/
def hypertension_plan : DietPlan :=
  { recommended :=
      ["Bananas and avocados (potassium-rich)",
       "Leafy greens (spinach, swiss chard)",
       "Beets and beetroot juice",
       "Oats and whole grains",
       "Fatty fish (salmon, mackerel)",
       "Garlic and herbs (instead of salt)",
       "Low-fat dairy products"],
    avoid :=
      ["High-sodium foods (canned soups, processed meats)",
       "Pickled and fermented foods",
       "Fast food and restaurant meals",
       "Alcohol",
       "Caffeine in excess",
       "Frozen dinners",
       "Salty snacks (chips, pretzels)"] }

/-- Thyroid plan literal (src/main.py lines 285-304). -/
def thyroid_plan : DietPlan :=
  { recommended :=
      ["Selenium-rich foods (Brazil nuts, tuna)",
       "Zinc-rich foods (oysters, beef, chickpeas)",
       "Antioxidant-rich berries",
       "Bone broth",
       "Seaweed (for hypothyroidism - consult doctor)",
       "Lean proteins",
       "Cruciferous veggies (cooked, not raw)"],
    avoid :=
      ["Soy-based products (can interfere with medication)",
       "Excessive iodine supplements",
       "Processed foods",
       "Gluten (if sensitive)",
       "Raw cruciferous vegetables in large amounts",
       "Sugar and refined carbs",
       "Alcohol"] }

/-- Heart-disease plan literal (src/main.py lines 305-324). -/
def heart_disease_plan : DietPlan :=
  { recommended :=
      ["Fatty fish (salmon, tuna, mackerel)",
       "Oats and barley",
       "Berries and cherries",
       "Nuts (walnuts, almonds)",
       "Olive oil",
       "Avocados",
       "Dark chocolate (70%+ cocoa)"],
    avoid :=
      ["Trans fats (fried foods, baked goods)",
       "Red meat and processed meats",
       "Full-fat dairy",
       "Excessive sodium",
       "Sugar-sweetened beverages",
       "Refined carbohydrates",
       "Excessive alcohol"] }

/-- The `diet_plans` dict of `get_disease_diet` (src/main.py lines 244-325),
as an association list in the dict's insertion order. -/
def diet_plans : List (String × DietPlan) :=
  [("diabetes", diabetes_plan),
   ("hypertension", hypertension_plan),
   ("thyroid", thyroid_plan),
   ("heart disease", heart_disease_plan)]

/-- The `default_plan` dict of `get_disease_diet` (src/main.py lines 328-347). -/
def default_plan : DietPlan :=
  { recommended :=
      ["Fresh fruits and vegetables",
       "Lean proteins (chicken, fish, legumes)",
       "Whole grains",
       "Healthy fats (avocado, nuts, olive oil)",
       "Plenty of water",
       "Herbal teas",
       "Probiotic foods (yogurt, kefir)"],
    avoid :=
      ["Processed foods",
       "Excessive sugar",
       "Fried and fatty foods",
       "Excessive alcohol",
       "Caffeine late in the day",
       "Artificial additives",
       "Highly salted foods"] }

/-- Plan-selection loop of `get_disease_diet` (src/main.py lines 349-357):
first key of `diet_plans` that is a substring of the lower-cased disease,
else the default plan. -/
def selectPlan (disease : String) : DietPlan :=
  match diet_plans.find? (fun kv => strHasSub kv.1 disease) with
  | some kv => kv.2
  | none => default_plan

/-- Preference Filter of `get_disease_diet` (src/main.py lines 360-374):
`if request.preference and request.preference != "No Preference"` followed by
the vegetarian / vegan / keto else-if chain over the lower-cased preference;
only the `recommended` list is rewritten. -/
def applyPref (preference : Option String) (plan : DietPlan) : DietPlan :=
  match preference with
  | none => plan
  | some p =>
    if p = "" ∨ p = "No Preference" then plan
    else
      let pref := lowerStr p
      if strHasSub "vegetarian" pref then
        { plan with recommended :=
            (plan.recommended.filter (fun f =>
              !(strHasSub "chicken" (lowerStr f)) &&
              !(strHasSub "fish" (lowerStr f)))) ++
            ["Plant-based proteins (tofu, tempeh, legumes)"] }
      else if strHasSub "vegan" pref then
        { plan with recommended :=
            (plan.recommended.filter (fun f =>
              !(strHasSub "chicken" (lowerStr f)) &&
              !(strHasSub "fish" (lowerStr f)) &&
              !(strHasSub "yogurt" (lowerStr f)) &&
              !(strHasSub "dairy" (lowerStr f)))) ++
            ["Plant-based proteins", "Fortified plant milks"] }
      else if strHasSub "keto" pref then
        { plan with recommended :=
            (plan.recommended.filter (fun f =>
              !(strHasSub "grains" (lowerStr f)) &&
              !(strHasSub "oats" (lowerStr f)))) ++
            ["Healthy fats", "Low-carb vegetables"] }
      else plan

/-- Handler of POST /disease-diet (`get_disease_diet`, src/main.py lines
236-382).  The body raises no exception, so the except block is dead code and
the result is always `.ok`. -/
def get_disease_diet (disease : String) (preference : Option String) :
    Except HTTPError DiseaseResponse :=
  let d := lowerStr disease
  let adjusted := applyPref preference (selectPlan d)
  .ok ⟨adjusted.recommended.take 8, adjusted.avoid.take 6⟩


/-- Fuel-driven worker for `strRepl`: scan left to right, on a match of `pat`
emit `rep` and skip past the matched run, exactly as Python's non-overlapping
left-to-right `str.replace`.  Fuel bounds the recursion structurally; it is
always called with the scanned list's length, which suffices. -/
def replGo (pat rep : List Char) : Nat → List Char → List Char
  | 0, l => l
  | fuel + 1, l =>
    match l with
    | [] => []
    | a :: as =>
      if !pat.isEmpty && listPre pat (a :: as) then
        rep ++ replGo pat rep fuel (List.drop (pat.length - 1) as)
      else
        a :: replGo pat rep fuel as

/-- Python's `s.replace(pat, rep)` for non-empty `pat` (the handlers only call
it with the literal pattern `"{topic}"`). -/
def strRepl (s pat rep : String) : String :=
  ⟨replGo pat.data rep.data s.data.length s.data⟩

/-- The `"english"`/`"Artificial Intelligence"` template literal
(src/main.py lines 70-85). -/
def ai_template : String :=
  "# The Future of Artificial Intelligence\n\nArtificial Intelligence (AI) is revolutionizing the way we live and work. From self-driving cars to virtual assistants, AI is becoming an integral part of our daily lives.\n\n## Key Areas of AI Impact:\n1. **Healthcare**: AI-powered diagnosis and drug discovery\n2. **Education**: Personalized learning experiences\n3. **Business**: Automated decision-making and analytics\n4. **Environment**: Climate change prediction and solutions\n\n## Challenges Ahead:\n- Ethical considerations and bias in AI\n- Privacy concerns\n- Job displacement vs. job creation\n\nThe future of AI is both exciting and challenging. As we continue to develop these technologies, it's crucial to ensure they benefit humanity as a whole."

/-- The `"english"`/`"Climate Change"` template literal
(src/main.py lines 87-102). -/
def climate_template : String :=
  "# Understanding Climate Change: A Call to Action\n\nClimate change is one of the most pressing issues of our time. The Earth's temperature has risen significantly over the past century, leading to severe environmental consequences.\n\n## Key Facts:\n- Global temperatures have risen by 1.1°C since pre-industrial times\n- Sea levels are rising at an accelerating rate\n- Extreme weather events are becoming more frequent\n\n## What Can We Do?\n1. Reduce carbon emissions\n2. Switch to renewable energy\n3. Practice sustainable living\n4. Support environmental policies\n\nEvery action counts in the fight against climate change. Together, we can make a difference."

/-- The `"english"`/`"default"` template literal (src/main.py lines 104-117). -/
def english_default_template : String :=
  "# {topic}\n\nHere's some interesting information about {topic}:\n\n## Key Points:\n• {topic} is an important topic in today's world\n• It affects various aspects of our lives\n• Understanding it better can help us make informed decisions\n\n## Why It Matters:\nThe significance of {topic} cannot be overstated. It plays a crucial role in shaping our future and the world around us.\n\n## Take Action:\nLearn more about {topic} and share this knowledge with others. Every conversation makes a difference!"

/-- The `"hindi"`/`"default"` template literal (src/main.py lines 120-130). -/
def hindi_default_template : String :=
  "# {topic} के बारे में जानकारी\n\n{topic} आज के समय का एक महत्वपूर्ण विषय है। आइए जानते हैं इसके बारे में:\n\n## मुख्य बिंदु:\n• {topic} हमारे दैनिक जीवन को प्रभावित करता है\n• इसकी समझ से हम बेहतर निर्णय ले सकते हैं\n• यह भविष्य के लिए महत्वपूर्ण है\n\n## क्यों जरूरी है:\n{topic} की अहमियत को कम करके नहीं आंका जा सकता। यह हमारे भविष्य को आकार देने में महत्वपूर्ण भूमिका निभाता है।"

/-- The `content_templates` dict of `generate_content` (src/main.py lines
68-132), as nested association lists in the dicts' insertion order. -/
def content_templates : List (String × List (String × String)) :=
  [("english",
    [("Artificial Intelligence", ai_template),
     ("Climate Change", climate_template),
     ("default", english_default_template)]),
   ("hindi",
    [("default", hindi_default_template)])]

/-- Association-list lookup mirroring a Python dict subscript / `in` test. -/
def alistFind (m : List (String × α)) (k : String) : Option α :=
  (m.find? (fun kv => kv.1 == k)).map (·.2)

set_option linter.unusedVariables false in
/-- Handler of POST /generate (`generate_content`, src/main.py lines 59-151):
lower-case the language, fall back to "english" when it has no template set,
return an exact topic match verbatim, otherwise substitute `\x7btopic\x7d` in
the language's default template (falling back to the English default).  The
username is unused; the body raises no exception, so the result is always
`.ok`. -/
def generate_content (username topic language : String) :
    Except HTTPError String :=
  let lang_key := lowerStr language
  let lang_key := if (alistFind content_templates lang_key).isNone then "english" else lang_key
  let templates := (alistFind content_templates lang_key).getD []
  match alistFind templates topic with
  | some c => .ok c
  | none =>
    let default_template := (alistFind templates "default").getD english_default_template
    .ok (strRepl default_template "{topic}" topic)


/-- A sequence of /disease-diet calls served in order.  The handler rebuilds
its tables locally on every call (src/main.py lines 244-347 are inside the
function body), so serving is a `map` with no state threaded between calls. -/
def serveDiet (reqs : List (String × Option String)) :
    List (Except HTTPError DiseaseResponse) :=
  reqs.map (fun req => get_disease_diet req.1 req.2)

/-- A request body to one of the three POST endpoints. -/
inductive Request where
  | generate (username topic language : String)
  | fitness (height weight : Int) (goal : String)
  | diet (disease : String) (preference : Option String)
deriving Repr, DecidableEq

/-- A response from one of the three POST endpoints. -/
inductive Response where
  | content (r : Except HTTPError String)
  | fitness (r : Except HTTPError FitnessResponse)
  | diet (r : Except HTTPError DiseaseResponse)
deriving Repr, DecidableEq

/-- Dispatch of a request to its endpoint handler. -/
def handle : Request → Response
  | .generate u t l => .content (generate_content u t l)
  | .fitness h w g => .fitness (get_fitness_plan h w g)
  | .diet d p => .diet (get_disease_diet d p)

/-- A sequence of requests served in order.  No handler reads or writes state
that outlives a call (the only module-level objects in src/main.py are the
FastAPI app and the response-model classes), so serving is a stateless `map`. -/
def serveAll (reqs : List Request) : List Response :=
  reqs.map handle


/-- The first branch of `bmiCategory` fires below 18.5. -/
theorem bmiCategory_underweight (q : ℚ) (h : q < 18.5) :
    bmiCategory q = "Underweight" := by
  unfold bmiCategory
  rw [if_pos h]

/-- The second branch of `bmiCategory` fires on [18.5, 25). -/
theorem bmiCategory_normal (q : ℚ) (h1 : 18.5 ≤ q) (h2 : q < 25) :
    bmiCategory q = "Normal weight" := by
  unfold bmiCategory
  rw [if_neg (by push_neg; exact h1), if_pos ⟨h1, h2⟩]

/-- The third branch of `bmiCategory` fires on [25, 30). -/
theorem bmiCategory_overweight (q : ℚ) (h1 : 25 ≤ q) (h2 : q < 30) :
    bmiCategory q = "Overweight" := by
  unfold bmiCategory
  rw [if_neg (by push_neg; linarith), if_neg (by rintro ⟨-, hb⟩; linarith),
    if_pos ⟨h1, h2⟩]

/-- The else branch of `bmiCategory` fires from 30 upward. -/
theorem bmiCategory_obese (q : ℚ) (h : 30 ≤ q) :
    bmiCategory q = "Obese" := by
  unfold bmiCategory
  rw [if_neg (by push_neg; linarith), if_neg (by rintro ⟨-, hb⟩; linarith),
    if_neg (by rintro ⟨-, hb⟩; linarith)]

unseal Rat.mul Rat.inv Rat.add Rat.sub Rat.ofScientific in
/-- Claim C1: for every fitness-plan request with nonzero height (height 0 raises,
see C9), the handler computes bmi = weight / (height/100)^2 rounded to one
decimal place and maps it to a category by half-open intervals with boundary
values 18.5, 25 and 30 belonging to the upper category; on the concrete
inputs (180, 81), (160, 50), (150, 30) and (170, 100) it yields bmi 25.0
"Overweight", 19.5 "Normal weight", 13.3 "Underweight" and 34.6 "Obese". -/
theorem C1_bmi_category :
    (∀ (h w : Int) (g : String), h ≠ 0 →
      ∃ r, get_fitness_plan h w g = .ok r ∧
        r.bmi = round1 ((w : ℚ) / (((h : ℚ) / 100) * ((h : ℚ) / 100))) ∧
        (r.bmi < 18.5 → r.category = "Underweight") ∧
        (18.5 ≤ r.bmi → r.bmi < 25 → r.category = "Normal weight") ∧
        (25 ≤ r.bmi → r.bmi < 30 → r.category = "Overweight") ∧
        (30 ≤ r.bmi → r.category = "Obese")) ∧
    get_fitness_plan 180 81 "x" = .ok ⟨25, "Overweight", general_plan⟩ ∧
    get_fitness_plan 160 50 "x" = .ok ⟨19.5, "Normal weight", general_plan⟩ ∧
    get_fitness_plan 150 30 "x" = .ok ⟨13.3, "Underweight", general_plan⟩ ∧
    get_fitness_plan 170 100 "x" = .ok ⟨34.6, "Obese", general_plan⟩ := by
  refine ⟨?_, by decide, by decide, by decide, by decide⟩
  intro h w g hh
  refine ⟨⟨round1 ((w : ℚ) / (((h : ℚ) / 100) * ((h : ℚ) / 100))),
    bmiCategory (round1 ((w : ℚ) / (((h : ℚ) / 100) * ((h : ℚ) / 100)))),
    selectGoalPlan g⟩, ?_, rfl,
    fun hq => bmiCategory_underweight _ hq,
    fun h1 h2 => bmiCategory_normal _ h1 h2,
    fun h1 h2 => bmiCategory_overweight _ h1 h2,
    fun hq => bmiCategory_obese _ hq⟩
  unfold get_fitness_plan
  rw [if_neg hh]

/-- Witness for C1 at height 180, weight 81. -/
theorem C1_bmi_category_witness :
    ∃ r, get_fitness_plan 180 81 "lose" = .ok r ∧
      r.bmi = round1 ((81 : ℚ) / (((180 : ℚ) / 100) * ((180 : ℚ) / 100))) ∧
      (r.bmi < 18.5 → r.category = "Underweight") ∧
      (18.5 ≤ r.bmi → r.bmi < 25 → r.category = "Normal weight") ∧
      (25 ≤ r.bmi → r.bmi < 30 → r.category = "Overweight") ∧
      (30 ≤ r.bmi → r.category = "Obese") :=
  C1_bmi_category.1 180 81 "lose" (by decide)

/-- Claim C2: goal selection is case-insensitive substring matching over the
lower-cased goal with fixed precedence lose, then gain/muscle, then maintain,
then endurance, then the general-fitness fallback (also for the empty goal);
the handler returns exactly the selected plan; "I want to LOSE weight" gives
the weight-loss plan, "build Muscle" the muscle-gain plan, "xyz" the
general-fitness plan. -/
theorem C2_goal_selection :
    (∀ (h w : Int) (g : String), h ≠ 0 →
      ∃ r, get_fitness_plan h w g = .ok r ∧ r.plan = selectGoalPlan g) ∧
    (∀ g : String,
      (strHasSub "lose" (lowerStr g) = true → selectGoalPlan g = lose_plan) ∧
      (strHasSub "lose" (lowerStr g) = false →
        strHasSub "gain" (lowerStr g) = true ∨ strHasSub "muscle" (lowerStr g) = true →
        selectGoalPlan g = gain_plan) ∧
      (strHasSub "lose" (lowerStr g) = false →
        strHasSub "gain" (lowerStr g) = false →
        strHasSub "muscle" (lowerStr g) = false →
        strHasSub "maintain" (lowerStr g) = true →
        selectGoalPlan g = maintain_plan) ∧
      (strHasSub "lose" (lowerStr g) = false →
        strHasSub "gain" (lowerStr g) = false →
        strHasSub "muscle" (lowerStr g) = false →
        strHasSub "maintain" (lowerStr g) = false →
        strHasSub "endurance" (lowerStr g) = true →
        selectGoalPlan g = endurance_plan) ∧
      (strHasSub "lose" (lowerStr g) = false →
        strHasSub "gain" (lowerStr g) = false →
        strHasSub "muscle" (lowerStr g) = false →
        strHasSub "maintain" (lowerStr g) = false →
        strHasSub "endurance" (lowerStr g) = false →
        selectGoalPlan g = general_plan)) ∧
    selectGoalPlan "I want to LOSE weight" = lose_plan ∧
    selectGoalPlan "build Muscle" = gain_plan ∧
    selectGoalPlan "xyz" = general_plan ∧
    selectGoalPlan "" = general_plan := by
  refine ⟨?_, ?_, by decide, by decide, by decide, by decide⟩
  · intro h w g hh
    refine ⟨⟨round1 ((w : ℚ) / (((h : ℚ) / 100) * ((h : ℚ) / 100))),
      bmiCategory (round1 ((w : ℚ) / (((h : ℚ) / 100) * ((h : ℚ) / 100)))),
      selectGoalPlan g⟩, ?_, rfl⟩
    unfold get_fitness_plan
    rw [if_neg hh]
  · intro g
    refine ⟨fun h1 => by simp [selectGoalPlan, h1],
      fun h1 h2 => by rcases h2 with h2 | h2 <;> simp [selectGoalPlan, h1, h2],
      fun h1 h2 h3 h4 => by simp [selectGoalPlan, h1, h2, h3, h4],
      fun h1 h2 h3 h4 h5 => by simp [selectGoalPlan, h1, h2, h3, h4, h5],
      fun h1 h2 h3 h4 h5 => by simp [selectGoalPlan, h1, h2, h3, h4, h5]⟩

/-- Witness for C2: the handler at (180, 81) returns the selected plan, and
"I want to LOSE weight" selects the weight-loss plan. -/
theorem C2_goal_selection_witness :
    (∃ r, get_fitness_plan 180 81 "I want to LOSE weight" = .ok r ∧
      r.plan = selectGoalPlan "I want to LOSE weight") ∧
    selectGoalPlan "I want to LOSE weight" = lose_plan :=
  ⟨C2_goal_selection.1 180 81 "I want to LOSE weight" (by decide),
   (C2_goal_selection.2.1 "I want to LOSE weight").1 (by decide)⟩

/-- Claim C3: the Preference Filter is an else-if chain (vegetarian before vegan
before keto, case-insensitive substring of the preference) in which at most
one branch fires: vegetarian drops entries containing "chicken" or "fish" and
appends "Plant-based proteins (tofu, tempeh, legumes)"; vegan drops entries
containing "chicken", "fish", "yogurt" or "dairy" and appends "Plant-based
proteins" and "Fortified plant milks"; keto drops entries containing "grains"
or "oats" and appends "Healthy fats" and "Low-carb vegetables"; "No
Preference", an absent preference, and values matching no keyword leave the
recommended list unchanged. -/
theorem C3_preference_filter :
    (∀ (plan : DietPlan) (p : String), p ≠ "" → p ≠ "No Preference" →
      (strHasSub "vegetarian" (lowerStr p) = true →
        applyPref (some p) plan =
          { plan with recommended :=
              (plan.recommended.filter (fun f =>
                !(strHasSub "chicken" (lowerStr f)) &&
                !(strHasSub "fish" (lowerStr f)))) ++
              ["Plant-based proteins (tofu, tempeh, legumes)"] }) ∧
      (strHasSub "vegetarian" (lowerStr p) = false →
        strHasSub "vegan" (lowerStr p) = true →
        applyPref (some p) plan =
          { plan with recommended :=
              (plan.recommended.filter (fun f =>
                !(strHasSub "chicken" (lowerStr f)) &&
                !(strHasSub "fish" (lowerStr f)) &&
                !(strHasSub "yogurt" (lowerStr f)) &&
                !(strHasSub "dairy" (lowerStr f)))) ++
              ["Plant-based proteins", "Fortified plant milks"] }) ∧
      (strHasSub "vegetarian" (lowerStr p) = false →
        strHasSub "vegan" (lowerStr p) = false →
        strHasSub "keto" (lowerStr p) = true →
        applyPref (some p) plan =
          { plan with recommended :=
              (plan.recommended.filter (fun f =>
                !(strHasSub "grains" (lowerStr f)) &&
                !(strHasSub "oats" (lowerStr f)))) ++
              ["Healthy fats", "Low-carb vegetables"] }) ∧
      (strHasSub "vegetarian" (lowerStr p) = false →
        strHasSub "vegan" (lowerStr p) = false →
        strHasSub "keto" (lowerStr p) = false →
        applyPref (some p) plan = plan)) ∧
    (∀ plan : DietPlan,
      applyPref none plan = plan ∧
      applyPref (some "No Preference") plan = plan) ∧
    (∀ (d : String) (p : Option String),
      get_disease_diet d p =
        .ok ⟨(applyPref p (selectPlan (lowerStr d))).recommended.take 8,
             (applyPref p (selectPlan (lowerStr d))).avoid.take 6⟩) := by
  refine ⟨?_, fun plan => ⟨rfl, by simp [applyPref]⟩, fun d p => rfl⟩
  intro plan p hne hnp
  have hif : ¬(p = "" ∨ p = "No Preference") := by
    rintro (h | h) <;> [exact hne h; exact hnp h]
  refine ⟨fun h1 => ?_, fun h1 h2 => ?_, fun h1 h2 h3 => ?_, fun h1 h2 h3 => ?_⟩ <;>
    simp [applyPref, hif, h1]
  · simp [h2]
  · simp [h2, h3]
  · simp [h2, h3]

/-- Witness for C3: the vegetarian branch on the diabetes plan with
preference "Vegetarian". -/
theorem C3_preference_filter_witness :
    applyPref (some "Vegetarian") diabetes_plan =
      { diabetes_plan with recommended :=
          (diabetes_plan.recommended.filter (fun f =>
            !(strHasSub "chicken" (lowerStr f)) &&
            !(strHasSub "fish" (lowerStr f)))) ++
          ["Plant-based proteins (tofu, tempeh, legumes)"] } :=
  (C3_preference_filter.1 diabetes_plan "Vegetarian" (by decide) (by decide)).1
    (by decide)

/-- Claim C4: disease-diet plan selection is case-insensitive substring matching of
the known condition keys against the lower-cased disease; when no key is a
substring — including for the empty disease — the handler returns the default
plan successfully; "Type 2 Diabetes" selects the diabetes plan, "unknown
condition" the default plan. -/
theorem C4_disease_selection :
    (∀ (d : String) (p : Option String),
      (∀ kv ∈ diet_plans, strHasSub kv.1 (lowerStr d) = false) →
      get_disease_diet d p =
        .ok ⟨(applyPref p default_plan).recommended.take 8,
             (applyPref p default_plan).avoid.take 6⟩) ∧
    (∀ (d : String) (p : Option String),
      strHasSub "diabetes" (lowerStr d) = true →
      get_disease_diet d p =
        .ok ⟨(applyPref p diabetes_plan).recommended.take 8,
             (applyPref p diabetes_plan).avoid.take 6⟩) ∧
    (∀ (d : String) (p : Option String), ∃ r, get_disease_diet d p = .ok r) ∧
    get_disease_diet "Type 2 Diabetes" none =
      .ok ⟨diabetes_plan.recommended.take 8, diabetes_plan.avoid.take 6⟩ ∧
    get_disease_diet "unknown condition" none =
      .ok ⟨default_plan.recommended.take 8, default_plan.avoid.take 6⟩ ∧
    get_disease_diet "" none =
      .ok ⟨default_plan.recommended.take 8, default_plan.avoid.take 6⟩ := by
  refine ⟨?_, ?_, fun d p => ⟨_, rfl⟩, by decide, by decide, by decide⟩
  · intro d p hnone
    have hfind : diet_plans.find? (fun kv => strHasSub kv.1 (lowerStr d)) = none := by
      rw [List.find?_eq_none]
      intro kv hkv
      simp [hnone kv hkv]
    simp [get_disease_diet, selectPlan, hfind]
  · intro d p hdia
    have hfind : diet_plans.find? (fun kv => strHasSub kv.1 (lowerStr d)) =
        some ("diabetes", diabetes_plan) := by
      unfold diet_plans
      rw [List.find?_cons_of_pos]
      exact hdia
    simp [get_disease_diet, selectPlan, hfind]

/-- Witness for C4: "unknown condition" matches no key and falls back to the
default plan; "type 2 diabetes spelled differently" is served successfully. -/
theorem C4_disease_selection_witness :
    (get_disease_diet "unknown condition" (some "No Preference") =
      .ok ⟨(applyPref (some "No Preference") default_plan).recommended.take 8,
           (applyPref (some "No Preference") default_plan).avoid.take 6⟩) ∧
    (get_disease_diet "Type 2 Diabetes" none =
      .ok ⟨(applyPref none diabetes_plan).recommended.take 8,
           (applyPref none diabetes_plan).avoid.take 6⟩) :=
  ⟨C4_disease_selection.1 "unknown condition" (some "No Preference") (by decide),
   C4_disease_selection.2.1 "Type 2 Diabetes" none (by decide)⟩

/-- Claim C5: for every disease and preference the disease-diet response has at
most 8 recommended entries and at most 6 avoid entries, the kept entries are
an initial segment (original order, only trailing entries dropped) of the
filtered plan's lists, and the handler never errors. -/
theorem C5_truncation :
    ∀ (d : String) (p : Option String),
      ∃ r, get_disease_diet d p = .ok r ∧
        r.recommended.length ≤ 8 ∧ r.avoid.length ≤ 6 ∧
        (∃ t, (applyPref p (selectPlan (lowerStr d))).recommended = r.recommended ++ t) ∧
        (∃ t, (applyPref p (selectPlan (lowerStr d))).avoid = r.avoid ++ t) := by
  intro d p
  refine ⟨⟨(applyPref p (selectPlan (lowerStr d))).recommended.take 8,
    (applyPref p (selectPlan (lowerStr d))).avoid.take 6⟩, rfl,
    List.length_take_le 8 _, List.length_take_le 6 _,
    ⟨(applyPref p (selectPlan (lowerStr d))).recommended.drop 8,
      (List.take_append_drop 8 _).symm⟩,
    ⟨(applyPref p (selectPlan (lowerStr d))).avoid.drop 6,
      (List.take_append_drop 6 _).symm⟩⟩

set_option maxRecDepth 100000 in
/-- Claim C6: the generate handler lowercases the language and falls back to
"english" when the language is unknown; an exact topic key returns the stored
template verbatim; otherwise the language's "default" template (or the
English default if the language has none) is returned with every occurrence
of the literal placeholder for the topic replaced by the request's topic;
"Artificial Intelligence"/"english" returns the literal AI template, and
"Unknown Topic X"/"english" returns the default template with the
placeholder replaced by "Unknown Topic X". -/
theorem C6_generate :
    (∀ (u t l : String), alistFind content_templates (lowerStr l) = none →
      generate_content u t l = generate_content u t "english") ∧
    (∀ (u t l : String) (ts : List (String × String)) (c : String),
      alistFind content_templates (lowerStr l) = some ts →
      alistFind ts t = some c →
      generate_content u t l = .ok c) ∧
    (∀ (u t l : String) (ts : List (String × String)),
      alistFind content_templates (lowerStr l) = some ts →
      alistFind ts t = none →
      generate_content u t l =
        .ok (strRepl ((alistFind ts "default").getD english_default_template)
          "{topic}" t)) ∧
    generate_content "u" "Artificial Intelligence" "english" = .ok ai_template ∧
    generate_content "u" "Unknown Topic X" "english" =
      .ok (strRepl english_default_template "{topic}" "Unknown Topic X") ∧
    generate_content "u" "Unknown Topic X" "french" =
      generate_content "u" "Unknown Topic X" "english" := by
  refine ⟨?_, ?_, ?_, by decide, by decide, by decide⟩
  · intro u t l hl
    have he : lowerStr "english" = "english" := by decide
    have hf : alistFind content_templates "english" =
        some [("Artificial Intelligence", ai_template),
              ("Climate Change", climate_template),
              ("default", english_default_template)] := by decide
    simp [generate_content, hl, he, hf]
  · intro u t l ts c hts ht
    simp [generate_content, hts, ht]
  · intro u t l ts hts ht
    simp [generate_content, hts, ht]

set_option maxRecDepth 100000 in
/-- Witness for C6: the unknown language "french" falls back to English, and
an unknown topic goes through the default template with substitution. -/
theorem C6_generate_witness :
    (generate_content "u" "T" "french" = generate_content "u" "T" "english") ∧
    (generate_content "u" "Unknown Topic X" "english" =
      .ok (strRepl ((alistFind
          [("Artificial Intelligence", ai_template),
           ("Climate Change", climate_template),
           ("default", english_default_template)] "default").getD
        english_default_template) "{topic}" "Unknown Topic X")) :=
  ⟨C6_generate.1 "u" "T" "french" (by decide),
   C6_generate.2.2.1 "u" "Unknown Topic X" "english"
     [("Artificial Intelligence", ai_template),
      ("Climate Change", climate_template),
      ("default", english_default_template)] (by decide) (by decide)⟩

/-- Every branch of the goal-selection chain yields a 6-entry plan. -/
theorem selectGoalPlan_length (g : String) : (selectGoalPlan g).length = 6 := by
  simp only [selectGoalPlan]
  split_ifs <;> decide

/-- The general-fitness plan is returned exactly when no goal keyword
matches. -/
theorem selectGoalPlan_eq_general_iff (g : String) :
    selectGoalPlan g = general_plan ↔
      strHasSub "lose" (lowerStr g) = false ∧
      strHasSub "gain" (lowerStr g) = false ∧
      strHasSub "muscle" (lowerStr g) = false ∧
      strHasSub "maintain" (lowerStr g) = false ∧
      strHasSub "endurance" (lowerStr g) = false := by
  unfold selectGoalPlan
  cases h1 : strHasSub "lose" (lowerStr g) <;>
    cases h2 : strHasSub "gain" (lowerStr g) <;>
      cases h3 : strHasSub "muscle" (lowerStr g) <;>
        cases h4 : strHasSub "maintain" (lowerStr g) <;>
          cases h5 : strHasSub "endurance" (lowerStr g) <;>
            simp [h1, h2, h3, h4, h5] <;> decide

/-- Claim C7: for every goal (and any request that does not raise), the returned
plan list has exactly 6 entries, every stored plan has 6 entries, and the
general-fitness fallback is selected precisely when no goal keyword
matches. -/
theorem C7_plan_invariant :
    (∀ (h w : Int) (g : String), h ≠ 0 →
      ∃ r, get_fitness_plan h w g = .ok r ∧ r.plan.length = 6 ∧
        (r.plan = general_plan ↔
          strHasSub "lose" (lowerStr g) = false ∧
          strHasSub "gain" (lowerStr g) = false ∧
          strHasSub "muscle" (lowerStr g) = false ∧
          strHasSub "maintain" (lowerStr g) = false ∧
          strHasSub "endurance" (lowerStr g) = false)) ∧
    lose_plan.length = 6 ∧ gain_plan.length = 6 ∧ maintain_plan.length = 6 ∧
    endurance_plan.length = 6 ∧ general_plan.length = 6 := by
  refine ⟨?_, by decide, by decide, by decide, by decide, by decide⟩
  intro h w g hh
  refine ⟨⟨round1 ((w : ℚ) / (((h : ℚ) / 100) * ((h : ℚ) / 100))),
    bmiCategory (round1 ((w : ℚ) / (((h : ℚ) / 100) * ((h : ℚ) / 100)))),
    selectGoalPlan g⟩, ?_, selectGoalPlan_length g,
    selectGoalPlan_eq_general_iff g⟩
  unfold get_fitness_plan
  rw [if_neg hh]

/-- Witness for C7 at (180, 81, "xyz"): a goal matching no keyword. -/
theorem C7_plan_invariant_witness :
    ∃ r, get_fitness_plan 180 81 "xyz" = .ok r ∧ r.plan.length = 6 ∧
      (r.plan = general_plan ↔
        strHasSub "lose" (lowerStr "xyz") = false ∧
        strHasSub "gain" (lowerStr "xyz") = false ∧
        strHasSub "muscle" (lowerStr "xyz") = false ∧
        strHasSub "maintain" (lowerStr "xyz") = false ∧
        strHasSub "endurance" (lowerStr "xyz") = false) :=
  C7_plan_invariant.1 180 81 "xyz" (by decide)

/-- Claim C8: the Preference Filter touches only the recommended list (the avoid
list passes through unchanged), and — since every call rebuilds its tables
locally — serving one more disease-diet request appends exactly that
request's response and leaves every earlier response unchanged, so two
successive identical requests receive identical responses with no
compounding of filter effects. -/
theorem C8_no_shared_mutation :
    (∀ (p : Option String) (plan : DietPlan),
      (applyPref p plan).avoid = plan.avoid) ∧
    (∀ (reqs : List (String × Option String)) (d : String) (p : Option String),
      serveDiet (reqs ++ [(d, p)]) = serveDiet reqs ++ [get_disease_diet d p]) ∧
    (∀ (d : String) (p : Option String),
      serveDiet [(d, p), (d, p)] =
        [get_disease_diet d p, get_disease_diet d p]) := by
  refine ⟨?_, fun reqs d p => by simp [serveDiet], fun d p => rfl⟩
  intro p plan
  unfold applyPref
  cases p with
  | none => rfl
  | some s =>
    dsimp only
    split_ifs <;> rfl

/-- Claim C9: the fitness handler performs no positivity validation — every nonzero
height (negative included) yields a 200 with a full body — while height 0
faults in the BMI arithmetic and is surfaced as the single InternalError
kind, an HTTP 500 carrying the exception's message; every request gets
either a full 200 body or a 500, never a partial body. -/
theorem C9_error_handling :
    (∀ (w : Int) (g : String),
      get_fitness_plan 0 w g = .error ⟨500, "float division by zero"⟩) ∧
    (∀ (h w : Int) (g : String), h ≠ 0 → ∃ r, get_fitness_plan h w g = .ok r) ∧
    (∀ (h w : Int) (g : String),
      (∃ r, get_fitness_plan h w g = .ok r) ∨
      ∃ e, get_fitness_plan h w g = .error e ∧ e.status = 500 ∧
        e.detail = "float division by zero") := by
  have hok : ∀ (h w : Int) (g : String), h ≠ 0 →
      get_fitness_plan h w g =
        .ok ⟨round1 ((w : ℚ) / (((h : ℚ) / 100) * ((h : ℚ) / 100))),
          bmiCategory (round1 ((w : ℚ) / (((h : ℚ) / 100) * ((h : ℚ) / 100)))),
          selectGoalPlan g⟩ := by
    intro h w g hh
    unfold get_fitness_plan
    rw [if_neg hh]
  refine ⟨fun w g => rfl, fun h w g hh => ⟨_, hok h w g hh⟩, ?_⟩
  intro h w g
  by_cases hh : h = 0
  · subst hh
    exact .inr ⟨⟨500, "float division by zero"⟩, rfl, rfl, rfl⟩
  · exact .inl ⟨_, hok h w g hh⟩

/-- Witness for C9 at height -175: a negative height is served successfully,
exhibiting the absence of positivity validation. -/
theorem C9_error_handling_witness :
    ∃ r, get_fitness_plan (-175) 70 "maintain" = .ok r :=
  C9_error_handling.2.1 (-175) 70 "maintain" (by decide)

/-- Claim C10: every endpoint handler is a deterministic pure function of its
request: the response to a request is independent of any earlier requests,
serving appends exactly the pure response of the new request, and two
positions holding identical request bodies receive identical responses. -/
theorem C10_determinism :
    (∀ (pre1 pre2 : List Request) (r : Request),
      (serveAll (pre1 ++ [r])).getLast? = (serveAll (pre2 ++ [r])).getLast?) ∧
    (∀ (pre : List Request) (r : Request),
      serveAll (pre ++ [r]) = serveAll pre ++ [handle r]) ∧
    (∀ (reqs : List Request) (i j : Nat),
      reqs[i]? = reqs[j]? → (serveAll reqs)[i]? = (serveAll reqs)[j]?) := by
  have happ : ∀ (pre : List Request) (r : Request),
      serveAll (pre ++ [r]) = serveAll pre ++ [handle r] := by
    intro pre r
    simp [serveAll]
  refine ⟨?_, happ, ?_⟩
  · intro pre1 pre2 r
    rw [happ, happ, List.getLast?_concat, List.getLast?_concat]
  · intro reqs i j hij
    simp only [serveAll, List.getElem?_map, hij]

/-- Witness for C10: two identical disease-diet requests in one sequence
receive identical responses. -/
theorem C10_determinism_witness :
    (serveAll [Request.diet "diabetes" none, Request.diet "diabetes" none])[0]? =
      (serveAll [Request.diet "diabetes" none, Request.diet "diabetes" none])[1]? :=
  C10_determinism.2.2 [Request.diet "diabetes" none, Request.diet "diabetes" none]
    0 1 rfl
